import Mathlib

/-!
Shallow embedding of the trial engine of the visual-working-memory trainer
(`src/unnamed/part_000`, the extended `page.tsx`).  JavaScript numbers are
modelled as `ℚ` (all quantities the claims touch are exact rationals),
integer-valued counters as `ℤ`, and `Math.random()` as an explicit stream
`ℕ → ℚ` of draws in `[0,1)` consumed left to right.  A possibly-NaN value
(the result of `parseInt` on a malformed string) is modelled as `Option ℤ`
with `none` standing for NaN.
-/

namespace VWM

/-! ## Configuration constants (lines 9-66 of the source) -/

def FIX_MS : ℚ := 500
def PRE_BLANK_MS : ℚ := 500
def MEM_MS : ℚ := 500
def ISI_MS : ℚ := 800
def RESP_WINDOW_MS : ℚ := 2500
def SAC_ON_MS : ℚ := 350
def SAC_BLANK_MS : ℚ := 450
def ANGLE_CHANGE : ℤ := 20
def BLOCK_SIZE : ℤ := 20
def SET_MIN : ℤ := 2
def SET_MAX : ℤ := 10
def FREQ_MIN : ℚ := 1
def FREQ_MAX : ℚ := 6
def FREQ_STEP_FRAC : ℚ := 25 / 100
def FREQ_MIN_SEP_FRAC : ℚ := 12 / 100
def POINTS_CORRECT : ℚ := 10
def FAST_BONUS_MS : ℚ := 600
def FAST_BONUS : ℚ := 5
def HUE_CHANGE : ℤ := 30
def HUE_MIN_SEP : ℤ := 30
def NUM_SET_MIN : ℤ := 1
def NUM_COUNT_MIN : ℤ := 4
def NUM_SET_MAX : ℤ := 12
def NUM_COUNT_MAX : ℤ := 10
def NUM_MEM_MS : ℚ := 200
def NUM_MIN_SEP : ℚ := 28

/-! ## Utilities (lines 126-138) -/

/-- `circularMinDiff` from the source: `min(|a-b|, 180-|a-b|)`. -/
def circularMinDiff (a b : ℤ) : ℤ := min |a - b| (180 - |a - b|)

/-! ## `randomOrientations` (lines 156-170)

The `while (tries++ < 999)` rejection loop is `orientTry` (the tries budget
is the fuel argument); the outer `for` loop over `i` is a fold over
`List.range n`.  The random stream position `k` is threaded explicitly;
each sample `Math.floor(Math.random() * 180)` consumes one draw. -/

def orientTry (r : ℕ → ℚ) (arr : List ℤ) : ℕ → ℕ → Option ℤ × ℕ
  | k, 0 => (none, k)
  | k, t + 1 =>
    let ang : ℤ := ⌊r k * 180⌋
    if arr.all (fun o => decide (ANGLE_CHANGE ≤ circularMinDiff o ang)) then
      (some ang, k + 1)
    else
      orientTry r arr (k + 1) t

def orientStep (r : ℕ → ℚ) (st : List ℤ × ℕ) (_i : ℕ) : List ℤ × ℕ :=
  match orientTry r st.1 st.2 999 with
  | (some ang, k') => (st.1 ++ [ang], k')
  | (none, k') => (st.1, k')

def randomOrientations (r : ℕ → ℚ) (n : ℕ) : List ℤ :=
  ((List.range n).foldl (orientStep r) ([], 0)).1

/-! ## `randomFreqs` (lines 194-212)

Rejection sampling of spatial frequencies in `[FREQ_MIN, FREQ_MAX)` under
the relative-separation check `|f-o| / ((f+o)/2) >= FREQ_MIN_SEP_FRAC`,
with the deterministic linear fallback
`FREQ_MIN + i*(FREQ_MAX-FREQ_MIN)/max(1, n-1)` pushed whenever the loop
for index `i` ends with `arr.length < i + 1`. -/

def relSep (f o : ℚ) : ℚ := |f - o| / ((f + o) / 2)

def freqTry (r : ℕ → ℚ) (arr : List ℚ) : ℕ → ℕ → Option ℚ × ℕ
  | k, 0 => (none, k)
  | k, t + 1 =>
    let f : ℚ := FREQ_MIN + r k * (FREQ_MAX - FREQ_MIN)
    if arr.all (fun o => decide (FREQ_MIN_SEP_FRAC ≤ relSep f o)) then
      (some f, k + 1)
    else
      freqTry r arr (k + 1) t

def freqFallback (n i : ℕ) : ℚ :=
  FREQ_MIN + (i : ℚ) * (FREQ_MAX - FREQ_MIN) / (max 1 (n - 1) : ℕ)

def freqStep (r : ℕ → ℚ) (n : ℕ) (st : List ℚ × ℕ) (i : ℕ) : List ℚ × ℕ :=
  let res := freqTry r st.1 st.2 999
  let arr' := match res.1 with
    | some f => st.1 ++ [f]
    | none => st.1
  let arr'' := if arr'.length < i + 1 then arr' ++ [freqFallback n i] else arr'
  (arr'', res.2)

def randomFreqs (r : ℕ → ℚ) (n : ℕ) : List ℚ :=
  ((List.range n).foldl (freqStep r n) ([], 0)).1

/-- Probe selection in `startTrial` (line 1062):
`Math.floor(Math.random() * setSize)`. -/
def probeIndex (draw : ℚ) (setSize : ℕ) : ℤ := ⌊draw * (setSize : ℚ)⌋

/-! ## Numerosity-compare trial generation (lines 1011-1028 of `startTrial`)

`smaller = max(NUM_COUNT_MIN, base - Math.floor(delta/2))`,
`larger = min(NUM_COUNT_MAX, smaller + delta)`, a draw `< 0.5` swaps which
side receives the larger count, and `bLarger = cntB > cntA`. -/

structure CompareTrial where
  cntA : ℤ
  cntB : ℤ
  bLarger : Bool
  deriving DecidableEq, Repr

def compareCounts (base delta : ℤ) (swapDraw : ℚ) : CompareTrial :=
  let smaller := max NUM_COUNT_MIN (base - delta / 2)
  let larger := min NUM_COUNT_MAX (smaller + delta)
  let swap := swapDraw < 1 / 2
  let cntA := if swap then larger else smaller
  let cntB := if swap then smaller else larger
  { cntA := cntA, cntB := cntB, bLarger := cntB > cntA }

/-- Compare-mode response scoring (`onKey`, lines 1213-1223):
`correct = (userSaysAMore && !bLarger) || (userSaysBMore && bLarger)`,
where ArrowLeft means "A has more" and ArrowRight means "B has more". -/
def compareCorrect (arrowLeft : Bool) (bLarger : Bool) : Bool :=
  (arrowLeft && !bLarger) || (!arrowLeft && bLarger)

/-! ## Session state and `finishTrial` (lines 473-698) -/

inductive Mode
  | orientation | color | spatial | numerosity | saccade
  deriving DecidableEq, Repr

inductive Submode
  | enumerate | compare
  deriving DecidableEq, Repr

inductive Phase
  | idle | fix | preblank | mem | memA | isiA | memB | isiB | saccade | isi | test
  deriving DecidableEq, Repr

/-- Insertion of one element into an ascending list, used to embed the
numeric ascending `.sort((a, b) => a - b)` on the reaction-time window. -/
def insertRat (x : ℚ) : List ℚ → List ℚ
  | [] => [x]
  | y :: ys => if x ≤ y then x :: y :: ys else y :: insertRat x ys

def sortRats : List ℚ → List ℚ
  | [] => []
  | x :: xs => insertRat x (sortRats xs)

/-- Median reaction time over the outcome window (lines 617-621): sort the
reaction times ascending, take the middle element for odd length, the mean
of the two middle elements for even length, and the current `rt` when the
window is empty. -/
def medianRt (outcomes : List (Bool × ℚ)) (rt : ℚ) : ℚ :=
  let arr := sortRats (outcomes.map Prod.snd)
  let mid := arr.length / 2
  if arr.length = 0 then rt
  else if arr.length % 2 = 1 then arr.getD mid 0
  else (arr.getD (mid - 1) 0 + arr.getD mid 0) / 2

/-- The mutable component state the claims touch.  React `useState` cells
and `useRef` cells are flattened into one record; `respTimeoutPending`
records whether the response-window timeout is scheduled. -/
structure St where
  mode : Mode
  submode : Submode
  help : Bool
  paused : Bool
  phase : Phase
  points : ℚ
  trial : ℤ
  barCorrect : ℤ
  barTotal : ℤ
  setSize : ℤ
  correctStreak : ℤ
  respTimeoutPending : Bool
  changeFlag : Bool
  testStart : ℚ
  recentOutcomes : List (Bool × ℚ)
  numExposureMs : ℚ
  numMinSepPx : ℚ
  numSimilarity01 : ℚ
  numAnchorSetSize : ℤ
  numCompareDelta : ℤ
  deriving DecidableEq, Repr

/-- The numerosity multi-parameter adaptation of `finishTrial`
(lines 611-649): the 16-outcome sliding window, the rolling accuracy and
median reaction time, the harder/easier parameter moves, and the
enumerate-submode count jitter around the (pre-adjustment) anchor. -/
def adaptNumerosity (s : St) (correct : Bool) (rt : ℚ) (jitterDraw : ℚ) : St :=
  let ro0 := s.recentOutcomes ++ [(correct, rt)]
  let ro := if 16 < ro0.length then ro0.drop 1 else ro0
  let acc : ℚ := ((ro.countP Prod.fst : ℕ) : ℚ) / ((max 1 ro.length : ℕ) : ℚ)
  let med := medianRt ro rt
  let sAdj :=
    if 3 / 4 ≤ acc ∧ med ≤ 900 then
      { s with
        numExposureMs := max 120 (s.numExposureMs - 20),
        numMinSepPx := max 18 (s.numMinSepPx - 2),
        numSimilarity01 := min 1 (s.numSimilarity01 + 6 / 100),
        numAnchorSetSize := min (NUM_COUNT_MAX - 1) (s.numAnchorSetSize + 1),
        numCompareDelta :=
          if s.submode = Submode.compare then max 1 (s.numCompareDelta - 1)
          else s.numCompareDelta }
    else if acc < 3 / 4 - 1 / 10 ∨ 900 + 250 < med then
      { s with
        numExposureMs := min 350 (s.numExposureMs + 20),
        numMinSepPx := min 48 (s.numMinSepPx + 2),
        numSimilarity01 := max 0 (s.numSimilarity01 - 6 / 100),
        numAnchorSetSize := max (NUM_COUNT_MIN + 1) (s.numAnchorSetSize - 1),
        numCompareDelta :=
          if s.submode = Submode.compare then min 3 (s.numCompareDelta + 1)
          else s.numCompareDelta }
    else s
  let sJit :=
    if s.submode = Submode.enumerate then
      let jitter := ⌊jitterDraw * 3⌋ - 1
      { sAdj with
        setSize := max NUM_COUNT_MIN (min NUM_COUNT_MAX (s.numAnchorSetSize + jitter)) }
    else sAdj
  { sJit with recentOutcomes := ro, correctStreak := 0 }

/-- The adaptive-rules section of `finishTrial` (lines 607-662): spatial
mode only tracks the streak, numerosity adapts its parameter set, and the
remaining modes run the 3-up/1-down per-trial staircase. -/
def adaptTrial (s : St) (correct : Bool) (rt : ℚ) (jitterDraw : ℚ) : St :=
  if s.mode = Mode.spatial then
    { s with correctStreak := if correct then s.correctStreak + 1 else 0 }
  else if s.mode = Mode.numerosity then
    adaptNumerosity s correct rt jitterDraw
  else
    if correct then
      if 3 ≤ s.correctStreak + 1 then
        { s with setSize := min SET_MAX (s.setSize + 1), correctStreak := 0 }
      else { s with correctStreak := s.correctStreak + 1 }
    else
      { s with setSize := max SET_MIN (s.setSize - 1), correctStreak := 0 }

/-- `finishTrial(correct, rt)` (lines 588-687): scoring, the per-mode
adaptive rules, counter advancement, and the deferred block-boundary
continuation (which captures the pre-increment `barTotal`/`barCorrect`
from the render closure and then resets the block counters).  The single
`Math.random()` draw of the enumerate-jitter branch is passed in as
`jitterDraw`. -/
def finishTrial (s : St) (correct : Bool) (rt : ℚ) (jitterDraw : ℚ) : St :=
  let points' :=
    if correct then
      s.points + (POINTS_CORRECT + if rt ≤ FAST_BONUS_MS then FAST_BONUS else 0)
    else s.points
  let barCorrect' := if correct then s.barCorrect + 1 else s.barCorrect
  let s1 := adaptTrial s correct rt jitterDraw
  let s2 :=
    { s1 with
      points := points', barCorrect := barCorrect',
      barTotal := s.barTotal + 1, trial := s.trial + 1 }
  if (s.barTotal + 1) % BLOCK_SIZE = 0 then
    let acc : ℚ := ((s.barCorrect : ℚ) + if correct then 1 else 0) / (BLOCK_SIZE : ℚ)
    let s3 := { s2 with barCorrect := 0, barTotal := 0 }
    if s.mode = Mode.spatial then
      { s3 with
        setSize := if 9 / 10 ≤ acc then min 7 (s3.setSize + 2) else max 1 (s3.setSize - 1) }
    else s3
  else s2

/-- `handleResponse(respChange)` (lines 689-698): rejected while the help
overlay is open, while paused, or outside the test phase; otherwise the
pending response timeout is cleared, the reaction time is taken from
`testStart`, correctness is `respChange === changeRef`, and `finishTrial`
runs. -/
def handleResponse (s : St) (respChange : Bool) (now : ℚ) (jitterDraw : ℚ) : St :=
  if s.help || s.paused || s.phase ≠ Phase.test then s
  else
    finishTrial { s with respTimeoutPending := false }
      (respChange == s.changeFlag) (now - s.testStart) jitterDraw

/-- The response-window timeout callback (lines 1109-1111, 1141-1143 and
1152-1154): `finishTrial(false, RESP_WINDOW_MS)`. -/
def respTimeoutFire (s : St) (jitterDraw : ℚ) : St :=
  finishTrial { s with respTimeoutPending := false } false RESP_WINDOW_MS jitterDraw

/-! ## The phase-timer chain and the pause key (lines 1091-1161, 1164-1208)

The nested `setTimeout` chain of `startTrial` never stores its timer
handles and its callbacks never read `paused`; only the response-window
timer handle is kept (in `respTimeoutRef`) and manipulated by the pause
key.  `chainNext` gives, for the phase entered at each link of the chain,
the next phase and the delay the chain waits before setting it. -/

structure PM where
  mode : Mode
  submode : Submode
  help : Bool
  paused : Bool
  phase : Phase
  numExposureMs : ℚ
  respRemaining : Option ℚ
  respElapsed : ℚ
  testStart : ℚ
  deriving DecidableEq, Repr

def chainNext (m : Mode) (sm : Submode) (expo : ℚ) : Phase → Option (Phase × ℚ)
  | Phase.fix => some (Phase.preblank, FIX_MS)
  | Phase.preblank =>
    if m = Mode.numerosity ∧ sm = Submode.compare then some (Phase.memA, PRE_BLANK_MS)
    else some (Phase.mem, PRE_BLANK_MS)
  | Phase.memA => some (Phase.isiA, expo)
  | Phase.isiA => some (Phase.memB, ISI_MS / 2)
  | Phase.memB => some (Phase.isiB, expo)
  | Phase.isiB => some (Phase.test, ISI_MS / 2)
  | Phase.mem =>
    let d := if m = Mode.numerosity then expo else MEM_MS
    if m = Mode.saccade then some (Phase.saccade, d) else some (Phase.isi, d)
  | Phase.saccade => some (Phase.isi, SAC_ON_MS)
  | Phase.isi => some (Phase.test, if m = Mode.saccade then SAC_BLANK_MS else ISI_MS)
  | _ => none

/-- One firing of the pending phase-chain timer.  It does not consult
`paused`, exactly as the `setTimeout` callbacks in `startTrial` do not;
entering the test phase schedules the response window. -/
def stepTimer (now : ℚ) (s : PM) : PM :=
  match chainNext s.mode s.submode s.numExposureMs s.phase with
  | none => s
  | some (p, _) =>
    if p = Phase.test then
      { s with phase := Phase.test, respRemaining := some RESP_WINDOW_MS,
               respElapsed := 0, testStart := now }
    else { s with phase := p }

/-- The `p`/`P` key handler (lines 1166-1169 and 1184-1208): with the help
overlay open any key only closes it; otherwise pausing during the test
phase records the elapsed response time and cancels the response timeout,
and resuming during the test phase reschedules it for the remaining time
and rebases `testStart` so paused time is excluded from the reaction
time.  In every other phase only the `paused` flag changes. -/
def pressPauseKey (now : ℚ) (s : PM) : PM :=
  if s.help then { s with help := false }
  else if !s.paused then
    if s.phase = Phase.test then
      { s with respElapsed := now - s.testStart, respRemaining := none, paused := true }
    else { s with paused := true }
  else
    if s.phase = Phase.test then
      { s with respRemaining := some (max 0 (RESP_WINDOW_MS - s.respElapsed)),
               testStart := now - s.respElapsed, paused := false }
    else { s with paused := false }

/-! ## Session-startup loading from the persistence adapter (lines 517-556)

`localStorage` is modelled as a partial map from key strings to stored
strings.  The JavaScript builtins `parseInt` (decimal) and `parseFloat`
are embedded below with `none` standing for NaN. -/

def kSetSize : String := "set_size"
def kPoints : String := "points"
def kSetTrial : String := "set_trial"
def kBarTotal : String := "bar_total"
def kBarCorrect : String := "bar_correct"
def kMode : String := "mode"
def kBlurOn : String := "blur_on"
def kSacTotal : String := "sac_total"
def kSacHits : String := "sac_hits"
def kNumerositySubmode : String := "numerosity_submode"
def kNumExposureMs : String := "num_exposure_ms"
def kNumMinSep : String := "num_min_sep"
def kNumSimilarity : String := "num_similarity01"
def kNumAnchorSetsize : String := "num_anchor_setsize"
def kNumCompareDelta : String := "num_compare_delta"
def vColor : String := "color"
def vOrientation : String := "orientation"
def vSpatial : String := "spatial"
def vNumerosity : String := "numerosity"
def vSaccade : String := "saccade"
def vZero : String := "0"
def vOne : String := "1"
def vEnumerate : String := "enumerate"
def vCompare : String := "compare"

def digitsVal (ds : List Char) : ℤ :=
  ds.foldl (fun a c => a * 10 + ((c.toNat : ℤ) - 48)) 0

/-- The JavaScript builtin `parseInt(s)` in base 10: optional leading
blanks and sign, then the longest digit prefix; NaN (`none`) when no
digit is found. -/
def parseIntJS (s : String) : Option ℤ :=
  let cs := s.toList.dropWhile (fun c => c = ' ')
  let signed : ℤ × List Char :=
    match cs with
    | '-' :: rest => (-1, rest)
    | '+' :: rest => (1, rest)
    | _ => (1, cs)
  let ds := signed.2.takeWhile Char.isDigit
  if ds.isEmpty then none else some (signed.1 * digitsVal ds)

/-- The JavaScript builtin `parseFloat(s)` restricted to plain decimal
notation: optional sign, digits, optional fraction; NaN (`none`) when no
digit is found. -/
def parseFloatJS (s : String) : Option ℚ :=
  let cs := s.toList.dropWhile (fun c => c = ' ')
  let signed : ℚ × List Char :=
    match cs with
    | '-' :: rest => (-1, rest)
    | '+' :: rest => (1, rest)
    | _ => (1, cs)
  let ds := signed.2.takeWhile Char.isDigit
  let rest := signed.2.drop ds.length
  let frac : List Char :=
    match rest with
    | '.' :: r => r.takeWhile Char.isDigit
    | _ => []
  if ds.isEmpty ∧ frac.isEmpty then none
  else some (signed.1 * ((digitsVal ds : ℚ) + (digitsVal frac : ℚ) / (10 : ℚ) ^ frac.length))

/-- `getDataAsNum` (lines 518-519): `parseInt(localStorage.getItem(key) ?? "0")`. -/
def getDataAsNum (store : String → Option String) (key : String) : Option ℤ :=
  parseIntJS ((store key).getD vZero)

/-- The session fields populated by the startup load effect.  Fields read
through bare `parseInt` keep the possibly-NaN `Option ℤ`; fields the
effect validates are stored validated. -/
structure InitState where
  setSize : Option ℤ
  points : Option ℤ
  trial : Option ℤ
  barTotal : Option ℤ
  barCorrect : Option ℤ
  mode : Mode
  blurOn : Bool
  sacTotal : ℤ
  sacHits : ℤ
  submode : Submode
  numExposureMs : ℚ
  numMinSepPx : ℚ
  numSimilarity01 : ℚ
  numAnchorSetSize : ℤ
  numCompareDelta : ℤ
  deriving DecidableEq, Repr

/-- The startup load effect (lines 520-556). -/
def loadInit (store : String → Option String) : InitState :=
  let g := getDataAsNum store
  { setSize := if g kSetSize = some 0 then some 1 else g kSetSize
    points := g kPoints
    trial := g kSetTrial
    barTotal := g kBarTotal
    barCorrect := g kBarCorrect
    mode :=
      let m := store kMode
      if m = some vColor then Mode.color
      else if m = some vOrientation then Mode.orientation
      else if m = some vSpatial then Mode.spatial
      else if m = some vNumerosity then Mode.numerosity
      else if m = some vSaccade then Mode.saccade
      else Mode.orientation
    blurOn :=
      let b := store kBlurOn
      if b = some vZero ∨ b = some vOne then b = some vOne else true
    sacTotal :=
      match g kSacTotal with
      | some v => if 0 ≤ v then v else 0
      | none => 0
    sacHits :=
      match g kSacHits with
      | some v => if 0 ≤ v then v else 0
      | none => 0
    submode :=
      let nsm := store kNumerositySubmode
      if nsm = some vEnumerate then Submode.enumerate
      else if nsm = some vCompare then Submode.compare
      else Submode.enumerate
    numExposureMs :=
      match g kNumExposureMs with
      | some e => if 50 < e then (e : ℚ) else NUM_MEM_MS
      | none => NUM_MEM_MS
    numMinSepPx :=
      match g kNumMinSep with
      | some v => if 16 ≤ v then (v : ℚ) else NUM_MIN_SEP
      | none => NUM_MIN_SEP
    numSimilarity01 :=
      match store kNumSimilarity with
      | some raw =>
        match parseFloatJS raw with
        | some x => if 0 ≤ x ∧ x ≤ 1 then x else 1 / 5
        | none => 1 / 5
      | none => 1 / 5
    numAnchorSetSize :=
      match g kNumAnchorSetsize with
      | some a => if NUM_SET_MIN ≤ a ∧ a ≤ NUM_SET_MAX then a else 5
      | none => 5
    numCompareDelta :=
      match g kNumCompareDelta with
      | some d => if 1 ≤ d ∧ d ≤ 3 then d else 2
      | none => 2 }

/-! ## Concrete fixtures used by counterexamples and witnesses -/

/-- The all-zero random stream. -/
def zeroStream : ℕ → ℚ := fun _ => 0

/-- The constant stream drawing `0.98` on every call. -/
def cexStream : ℕ → ℚ := fun _ => 49 / 50

def sAbc : String := "abc"
def sNegThree : String := "-3"

/-- A store holding a non-numeric `points` entry and a negative
`set_size` entry. -/
def badStore : String → Option String :=
  fun k => if k = kPoints then some sAbc else if k = kSetSize then some sNegThree else none

/-- A mid-trial state in the test phase of orientation mode: help closed,
not paused, response window pending, a change trial. -/
def respState : St :=
  { mode := Mode.orientation, submode := Submode.enumerate, help := false,
    paused := false, phase := Phase.test, points := 0, trial := 0,
    barCorrect := 0, barTotal := 0, setSize := 5, correctStreak := 0,
    respTimeoutPending := true, changeFlag := true, testStart := 0,
    recentOutcomes := [], numExposureMs := 200, numMinSepPx := 28,
    numSimilarity01 := 1 / 5, numAnchorSetSize := 5, numCompareDelta := 2 }

/-- A spatial-frequency state at the start of a 20-trial block. -/
def spatialBlockStart : St :=
  { respState with mode := Mode.spatial, setSize := 3 }

/-- A spatial-frequency block start whose set size is near the ceiling. -/
def spatialBlockHigh : St :=
  { respState with mode := Mode.spatial, setSize := 6 }

/-- Nineteen correct outcomes followed by one incorrect: 95% block accuracy. -/
def blockOutcomes : List Bool := List.replicate 19 true ++ [false]

/-- Folding `finishTrial` over a list of outcomes at a fixed 700 ms
reaction time. -/
def runBlock (s : St) (outs : List Bool) : St :=
  outs.foldl (fun st c => finishTrial st c 700 0) s

/-- A phase-machine state at the fixation phase of orientation mode,
already paused. -/
def pmFixPaused : PM :=
  { mode := Mode.orientation, submode := Submode.enumerate, help := false,
    paused := true, phase := Phase.fix, numExposureMs := 200,
    respRemaining := none, respElapsed := 0, testStart := 0 }

/-- A phase-machine state in the test phase with the response window
pending, 1000 ms after the window opened. -/
def pmTest : PM :=
  { pmFixPaused with
    paused := false
    phase := Phase.test
    respRemaining := some RESP_WINDOW_MS
    testStart := 0 }

/-! ## Helper lemmas -/

theorem modeEq_os : (Mode.orientation = Mode.spatial) = False := eq_false (by decide)

theorem modeEq_on : (Mode.orientation = Mode.numerosity) = False := eq_false (by decide)

theorem modeEq_sn : (Mode.spatial = Mode.numerosity) = False := eq_false (by decide)

theorem adaptNumerosity_points (s : St) (c : Bool) (rt jd : ℚ) :
    (adaptNumerosity s c rt jd).points = s.points := by
  unfold adaptNumerosity
  dsimp only
  split_ifs <;> rfl

theorem adaptTrial_points (s : St) (c : Bool) (rt jd : ℚ) :
    (adaptTrial s c rt jd).points = s.points := by
  unfold adaptTrial
  split_ifs <;> first | rfl | exact adaptNumerosity_points s c rt jd

theorem finishTrial_points (s : St) (c : Bool) (rt jd : ℚ) :
    (finishTrial s c rt jd).points =
      (if c then s.points + (POINTS_CORRECT + if rt ≤ FAST_BONUS_MS then FAST_BONUS else 0)
       else s.points) := by
  unfold finishTrial
  dsimp only
  split_ifs <;> rfl

theorem finishTrial_correctStreak (s : St) (c : Bool) (rt jd : ℚ) :
    (finishTrial s c rt jd).correctStreak = (adaptTrial s c rt jd).correctStreak := by
  unfold finishTrial
  dsimp only
  split_ifs <;> rfl

theorem finishTrial_setSize_nonblock (s : St) (c : Bool) (rt jd : ℚ)
    (hb : ¬ (s.barTotal + 1) % BLOCK_SIZE = 0) :
    (finishTrial s c rt jd).setSize = (adaptTrial s c rt jd).setSize := by
  unfold finishTrial
  simp only [hb, if_false]

theorem finishTrial_setSize_block (s : St) (c : Bool) (rt jd : ℚ)
    (hb : (s.barTotal + 1) % BLOCK_SIZE = 0) :
    (finishTrial s c rt jd).setSize =
      (if s.mode = Mode.spatial then
        (if 9 / 10 ≤ ((s.barCorrect : ℚ) + if c then 1 else 0) / (BLOCK_SIZE : ℚ)
         then min 7 ((adaptTrial s c rt jd).setSize + 2)
         else max 1 ((adaptTrial s c rt jd).setSize - 1))
      else (adaptTrial s c rt jd).setSize) := by
  unfold finishTrial
  simp only [hb, if_true]
  split_ifs <;> rfl

theorem finishTrial_setSize_nonspatial (s : St) (c : Bool) (rt jd : ℚ)
    (hm : ¬ s.mode = Mode.spatial) :
    (finishTrial s c rt jd).setSize = (adaptTrial s c rt jd).setSize := by
  by_cases hb : (s.barTotal + 1) % BLOCK_SIZE = 0
  · rw [finishTrial_setSize_block s c rt jd hb]
    simp [hm]
  · exact finishTrial_setSize_nonblock s c rt jd hb

theorem adaptTrial_stair (s : St) (c : Bool) (rt jd : ℚ)
    (h1 : ¬ s.mode = Mode.spatial) (h2 : ¬ s.mode = Mode.numerosity) :
    (adaptTrial s c rt jd).setSize =
      (if c then
        (if 3 ≤ s.correctStreak + 1 then min SET_MAX (s.setSize + 1) else s.setSize)
      else max SET_MIN (s.setSize - 1)) ∧
    (adaptTrial s c rt jd).correctStreak =
      (if c ∧ ¬ 3 ≤ s.correctStreak + 1 then s.correctStreak + 1 else 0) := by
  unfold adaptTrial
  simp only [h1, h2, if_false]
  cases c
  case false => simp
  case true => split_ifs with h <;> simp_all

theorem adaptTrial_spatial_setSize (s : St) (c : Bool) (rt jd : ℚ)
    (hm : s.mode = Mode.spatial) :
    (adaptTrial s c rt jd).setSize = s.setSize := by
  unfold adaptTrial
  simp only [hm, if_true]

theorem staircase_modes_not_spatial (s : St)
    (hm : s.mode = Mode.orientation ∨ s.mode = Mode.color ∨ s.mode = Mode.saccade) :
    ¬ s.mode = Mode.spatial ∧ ¬ s.mode = Mode.numerosity := by
  rcases hm with h | h | h <;> rw [h] <;> exact ⟨by decide, by decide⟩

/-! ## Claim theorems -/

/-- C7: for every scored trial the points awarded equal 10 plus a 5-point
bonus when the reaction time is at most 600 ms if the response was
correct, and 0 if incorrect; scoring never decrements points; and a
correct "different" response at 400 ms on a change trial adds exactly 15
points. -/
theorem claim_C7_scoring (s : St) (c : Bool) (rt jd : ℚ) :
    (finishTrial s c rt jd).points =
      s.points + (if c then POINTS_CORRECT + (if rt ≤ FAST_BONUS_MS then FAST_BONUS else 0) else 0) ∧
    s.points ≤ (finishTrial s c rt jd).points ∧
    POINTS_CORRECT = 10 ∧ FAST_BONUS = 5 ∧ FAST_BONUS_MS = 600 ∧
    (handleResponse respState true 400 jd).points = respState.points + 15 := by
  have hpts := finishTrial_points s c rt jd
  refine ⟨?_, ?_, rfl, rfl, rfl, ?_⟩
  · rw [hpts]; cases c <;> simp
  · rw [hpts]
    split_ifs <;> norm_num [POINTS_CORRECT, FAST_BONUS_MS, FAST_BONUS]
  · have h2 := finishTrial_points { respState with respTimeoutPending := false } true 400 jd
    have : handleResponse respState true 400 jd =
        finishTrial { respState with respTimeoutPending := false } true 400 jd := by
      norm_num [handleResponse, respState]
    rw [this, h2]
    norm_num [respState, POINTS_CORRECT, FAST_BONUS_MS, FAST_BONUS]

/-- C6: when the response window elapses with no accepted input the
timeout callback scores the trial as incorrect with a reaction time of
`RESP_WINDOW_MS = 2500`, awarding no points, and in the per-trial
staircase modes (orientation, color, saccade) the set size decreases by
one, clamped at the floor of 2. -/
theorem claim_C6_timeout (s : St) (jd : ℚ)
    (hm : s.mode = Mode.orientation ∨ s.mode = Mode.color ∨ s.mode = Mode.saccade) :
    respTimeoutFire s jd =
      finishTrial { s with respTimeoutPending := false } false RESP_WINDOW_MS jd ∧
    RESP_WINDOW_MS = 2500 ∧
    (respTimeoutFire s jd).points = s.points ∧
    (respTimeoutFire s jd).setSize = max SET_MIN (s.setSize - 1) ∧
    SET_MIN ≤ (respTimeoutFire s jd).setSize := by
  obtain ⟨h1, h2⟩ := staircase_modes_not_spatial s hm
  have hmode : ({ s with respTimeoutPending := false } : St).mode = s.mode := rfl
  refine ⟨rfl, rfl, ?_, ?_, ?_⟩
  · show (finishTrial { s with respTimeoutPending := false } false RESP_WINDOW_MS jd).points = _
    rw [finishTrial_points]
    simp
  · show (finishTrial { s with respTimeoutPending := false } false RESP_WINDOW_MS jd).setSize = _
    rw [finishTrial_setSize_nonspatial _ _ _ _ (by rw [hmode]; exact h1)]
    have := adaptTrial_stair { s with respTimeoutPending := false } false RESP_WINDOW_MS jd
      (by rw [hmode]; exact h1) (by rw [hmode]; exact h2)
    rw [this.1]
    simp
  · show SET_MIN ≤ (finishTrial { s with respTimeoutPending := false } false RESP_WINDOW_MS jd).setSize
    rw [finishTrial_setSize_nonspatial _ _ _ _ (by rw [hmode]; exact h1)]
    have := adaptTrial_stair { s with respTimeoutPending := false } false RESP_WINDOW_MS jd
      (by rw [hmode]; exact h1) (by rw [hmode]; exact h2)
    rw [this.1]
    simp

/-- C6 witness: the timeout at the concrete test-phase state scores zero
points and drops the set size from 5 to 4, staying at or above 2. -/
theorem claim_C6_timeout_witness :
    (respTimeoutFire respState 0).points = respState.points ∧
    (respTimeoutFire respState 0).setSize = max SET_MIN (respState.setSize - 1) ∧
    SET_MIN ≤ (respTimeoutFire respState 0).setSize := by
  have h := claim_C6_timeout respState 0 (Or.inl rfl)
  exact ⟨h.2.2.1, h.2.2.2.1, h.2.2.2.2⟩

/-- C8: in the orientation, color and saccade modes the per-trial
staircase raises the set size by one (capped at 10) after the third
consecutive correct response and resets the streak, leaves it unchanged
on earlier correct responses, lowers it by one (floored at 2) on any
incorrect response and resets the streak, and keeps the set size inside
`[2, 10]` whenever it started there. -/
theorem claim_C8_staircase (s : St) (c : Bool) (rt jd : ℚ)
    (hm : s.mode = Mode.orientation ∨ s.mode = Mode.color ∨ s.mode = Mode.saccade) :
    ((c = true ∧ 3 ≤ s.correctStreak + 1) →
      (finishTrial s c rt jd).setSize = min SET_MAX (s.setSize + 1) ∧
      (finishTrial s c rt jd).correctStreak = 0) ∧
    ((c = true ∧ s.correctStreak + 1 < 3) →
      (finishTrial s c rt jd).setSize = s.setSize ∧
      (finishTrial s c rt jd).correctStreak = s.correctStreak + 1) ∧
    (c = false →
      (finishTrial s c rt jd).setSize = max SET_MIN (s.setSize - 1) ∧
      (finishTrial s c rt jd).correctStreak = 0) ∧
    (SET_MIN ≤ s.setSize → s.setSize ≤ SET_MAX →
      SET_MIN ≤ (finishTrial s c rt jd).setSize ∧
      (finishTrial s c rt jd).setSize ≤ SET_MAX) := by
  obtain ⟨h1, h2⟩ := staircase_modes_not_spatial s hm
  have hsize := finishTrial_setSize_nonspatial s c rt jd h1
  have hstk := finishTrial_correctStreak s c rt jd
  obtain ⟨ha, hb⟩ := adaptTrial_stair s c rt jd h1 h2
  rw [ha] at hsize
  rw [hb] at hstk
  refine ⟨?_, ?_, ?_, ?_⟩
  · rintro ⟨hc, h3⟩
    subst hc
    constructor
    · rw [hsize]; simp [h3]
    · rw [hstk]; simp [h3]
  · rintro ⟨hc, h3⟩
    subst hc
    have hlt : ¬ 3 ≤ s.correctStreak + 1 := by omega
    constructor
    · rw [hsize]; simp [hlt]
    · rw [hstk]; simp [hlt]
  · rintro hc
    subst hc
    exact ⟨by rw [hsize]; simp, by rw [hstk]; simp⟩
  · intro hlo hhi
    rw [hsize]
    unfold SET_MIN SET_MAX at *
    split_ifs <;> omega

/-- C8 witness: at the concrete test state (streak 0, set size 5) an
incorrect response drops the set size to 4 and keeps it inside the
bounds. -/
theorem claim_C8_staircase_witness :
    (finishTrial respState false 700 0).setSize = max SET_MIN (respState.setSize - 1) ∧
    SET_MIN ≤ (finishTrial respState false 700 0).setSize ∧
    (finishTrial respState false 700 0).setSize ≤ SET_MAX := by
  have h := claim_C8_staircase respState false 700 0 (Or.inl rfl)
  refine ⟨(h.2.2.1 rfl).1, ?_, ?_⟩
  · exact (h.2.2.2 (by norm_num [respState, SET_MIN]) (by norm_num [respState, SET_MAX])).1
  · exact (h.2.2.2 (by norm_num [respState, SET_MIN]) (by norm_num [respState, SET_MAX])).2

/-- C9: in spatial-frequency mode the set size changes only at block
boundaries (every `BLOCK_SIZE = 20` trials): mid-block trials leave it
unchanged; at a boundary it rises by 2 (capped at 7) when the block
accuracy is at least 90% and otherwise drops by 1 (floored at 1); and a
concrete block of 20 trials at 95% accuracy raises the set size by
exactly 2, capped at 7. -/
theorem claim_C9_block (s : St) (c : Bool) (rt jd : ℚ) (hm : s.mode = Mode.spatial) :
    ((s.barTotal + 1) % BLOCK_SIZE ≠ 0 → (finishTrial s c rt jd).setSize = s.setSize) ∧
    ((s.barTotal + 1) % BLOCK_SIZE = 0 →
      (finishTrial s c rt jd).setSize =
        (if 9 / 10 ≤ ((s.barCorrect : ℚ) + if c then 1 else 0) / (BLOCK_SIZE : ℚ)
         then min 7 (s.setSize + 2) else max 1 (s.setSize - 1))) ∧
    (runBlock spatialBlockStart blockOutcomes).setSize = spatialBlockStart.setSize + 2 ∧
    (runBlock spatialBlockHigh blockOutcomes).setSize = 7 := by
  refine ⟨?_, ?_, ?_, ?_⟩
  · intro hb
    rw [finishTrial_setSize_nonblock s c rt jd hb]
    exact adaptTrial_spatial_setSize s c rt jd hm
  · intro hb
    rw [finishTrial_setSize_block s c rt jd hb]
    rw [adaptTrial_spatial_setSize s c rt jd hm]
    simp [hm]
  · norm_num [runBlock, blockOutcomes, List.replicate, finishTrial, adaptTrial,
      respState, spatialBlockStart, POINTS_CORRECT, FAST_BONUS_MS, FAST_BONUS,
      BLOCK_SIZE, modeEq_sn]
  · norm_num [runBlock, blockOutcomes, List.replicate, finishTrial, adaptTrial,
      respState, spatialBlockStart, spatialBlockHigh, POINTS_CORRECT, FAST_BONUS_MS,
      FAST_BONUS, BLOCK_SIZE, modeEq_sn]

/-- C9 witness: at a concrete boundary state (19 prior trials, 18 of them
correct, current trial correct → 95% accuracy) the set size rises by 2. -/
theorem claim_C9_block_witness :
    (finishTrial { spatialBlockStart with barTotal := 19, barCorrect := 18 } true 700 0).setSize =
      spatialBlockStart.setSize + 2 := by
  have h := (claim_C9_block { spatialBlockStart with barTotal := 19, barCorrect := 18 }
    true 700 0 rfl).2.1 (by norm_num [BLOCK_SIZE])
  rw [h]
  norm_num [spatialBlockStart, respState, BLOCK_SIZE]

/-- C1: the response handler is correctly rejected outside the test
phase, while paused, or under the help overlay, but it is not idempotent
within a trial: after a first accepted response the phase is still `test`
(the next trial only starts from the deferred continuation), so a second
invocation before then passes the guard and scores again — points and
counters advance twice. -/
theorem claim_C1_response_reentry :
    (∀ (s : St) (rc : Bool) (now jd : ℚ),
      s.help = true ∨ s.paused = true ∨ s.phase ≠ Phase.test →
      handleResponse s rc now jd = s) ∧
    (handleResponse respState true 400 0).phase = Phase.test ∧
    (handleResponse respState true 400 0).help = false ∧
    (handleResponse respState true 400 0).paused = false ∧
    (handleResponse respState true 400 0).points = 15 ∧
    (handleResponse respState true 400 0).trial = 1 ∧
    (handleResponse (handleResponse respState true 400 0) true 450 0).points = 30 ∧
    (handleResponse (handleResponse respState true 400 0) true 450 0).trial = 2 := by
  constructor
  · intro s rc now jd hg
    unfold handleResponse
    rcases hg with h | h | h <;> simp [h]
  · norm_num [handleResponse, finishTrial, adaptTrial, respState, POINTS_CORRECT,
      FAST_BONUS_MS, FAST_BONUS, BLOCK_SIZE, SET_MAX, SET_MIN, modeEq_os, modeEq_on]

theorem orientTry_some (r : ℕ → ℚ) (hr : ∀ j, 0 ≤ r j ∧ r j < 1) (arr : List ℤ) :
    ∀ (t k : ℕ) (ang : ℤ) (k' : ℕ), orientTry r arr k t = (some ang, k') →
      (0 ≤ ang ∧ ang < 180) ∧ ∀ o ∈ arr, ANGLE_CHANGE ≤ circularMinDiff o ang := by
  intro t
  induction t with
  | zero => intro k ang k' h; exact absurd h (by simp [orientTry])
  | succ t ih =>
    intro k ang k' h
    rw [orientTry] at h
    by_cases hc : arr.all (fun o => decide (ANGLE_CHANGE ≤ circularMinDiff o ⌊r k * 180⌋))
    · rw [if_pos hc] at h
      rw [Prod.ext_iff] at h
      obtain ⟨h1, h2⟩ := h
      rw [Option.some_inj] at h1
      subst h1
      simp only [List.all_eq_true, decide_eq_true_eq] at hc
      refine ⟨⟨?_, ?_⟩, hc⟩
      · exact Int.floor_nonneg.mpr (by nlinarith [(hr k).1])
      · exact Int.floor_lt.mpr (by push_cast; nlinarith [(hr k).1, (hr k).2])
    · rw [if_neg hc] at h
      exact ih (k + 1) ang k' h

theorem orientStep_inv (r : ℕ → ℚ) (hr : ∀ j, 0 ≤ r j ∧ r j < 1)
    (st : List ℤ × ℕ) (i : ℕ)
    (h1 : ∀ a ∈ st.1, 0 ≤ a ∧ a < 180)
    (h2 : st.1.Pairwise fun a b => ANGLE_CHANGE ≤ circularMinDiff a b) :
    (∀ a ∈ (orientStep r st i).1, 0 ≤ a ∧ a < 180) ∧
    ((orientStep r st i).1.Pairwise fun a b => ANGLE_CHANGE ≤ circularMinDiff a b) ∧
    (orientStep r st i).1.length ≤ st.1.length + 1 := by
  unfold orientStep
  rcases h : orientTry r st.1 st.2 999 with ⟨res, k'⟩
  rcases res with _ | ang
  · exact ⟨h1, h2, by simp⟩
  · obtain ⟨hang, hsep⟩ := orientTry_some r hr st.1 999 st.2 ang k' h
    dsimp only
    refine ⟨?_, ?_, by simp⟩
    · intro a ha
      rcases List.mem_append.mp ha with ha | ha
      · exact h1 a ha
      · rw [List.mem_singleton.mp ha]; exact hang
    · rw [List.pairwise_append]
      exact ⟨h2, List.pairwise_singleton _ _, by simpa using hsep⟩

theorem orientFold_inv (r : ℕ → ℚ) (hr : ∀ j, 0 ≤ r j ∧ r j < 1) (l : List ℕ) :
    ∀ st : List ℤ × ℕ,
      (∀ a ∈ st.1, 0 ≤ a ∧ a < 180) →
      (st.1.Pairwise fun a b => ANGLE_CHANGE ≤ circularMinDiff a b) →
      (∀ a ∈ (l.foldl (orientStep r) st).1, 0 ≤ a ∧ a < 180) ∧
      ((l.foldl (orientStep r) st).1.Pairwise fun a b => ANGLE_CHANGE ≤ circularMinDiff a b) ∧
      (l.foldl (orientStep r) st).1.length ≤ st.1.length + l.length := by
  induction l with
  | nil => intro st h1 h2; exact ⟨h1, h2, by simp⟩
  | cons i l ih =>
    intro st h1 h2
    obtain ⟨g1, g2, g3⟩ := orientStep_inv r hr st i h1 h2
    obtain ⟨f1, f2, f3⟩ := ih (orientStep r st i) g1 g2
    refine ⟨f1, f2, ?_⟩
    simp only [List.foldl_cons, List.length_cons]
    omega

theorem orient_bucket_sep (a b : ℤ) (ha0 : 0 ≤ a) (ha1 : a < 180) (hb0 : 0 ≤ b)
    (hb1 : b < 180) (h : ANGLE_CHANGE ≤ circularMinDiff a b) :
    a.toNat / 20 ≠ b.toNat / 20 := by
  intro heq
  have habs : |a - b| < 20 := abs_sub_lt_iff.mpr ⟨by omega, by omega⟩
  have hlt : circularMinDiff a b < 20 := lt_of_le_of_lt (min_le_left _ _) habs
  rw [ANGLE_CHANGE] at h
  omega

/-- At most nine integers in `[0, 180)` can be pairwise at least 20 apart
under the circular distance: each must land in a distinct one of the nine
buckets `[20k, 20k + 20)`. -/
theorem orient_sep_length_le (l : List ℤ)
    (hm : ∀ a ∈ l, 0 ≤ a ∧ a < 180)
    (hp : l.Pairwise fun a b => ANGLE_CHANGE ≤ circularMinDiff a b) :
    l.length ≤ 9 := by
  have hnd : (l.map fun a => a.toNat / 20).Pairwise (· ≠ ·) := by
    rw [List.pairwise_map]
    refine List.Pairwise.imp_of_mem ?_ hp
    intro a b ha hb hsep
    exact orient_bucket_sep a b (hm a ha).1 (hm a ha).2 (hm b hb).1 (hm b hb).2 hsep
  have hcard : (l.map fun a => a.toNat / 20).toFinset.card = l.length := by
    rw [List.toFinset_card_of_nodup hnd, List.length_map]
  have hsub : (l.map fun a => a.toNat / 20).toFinset ⊆ Finset.range 9 := by
    intro x hx
    rw [List.mem_toFinset, List.mem_map] at hx
    obtain ⟨a, ha, rfl⟩ := hx
    rw [Finset.mem_range]
    have := hm a ha
    omega
  have := Finset.card_le_card hsub
  rw [hcard, Finset.card_range] at this
  exact this

/-- C3: for a random source drawing in `[0, 1)`, `randomOrientations`
returns angles in `[0, 180)` that are pairwise at least `ANGLE_CHANGE =
20` degrees apart under the circular distance, with at most `n` elements
— but for `n ≥ 10` at most nine angles can satisfy the separation, so at
the maximum set size of 10 the memory array is always underfilled and
the probe index drawn for the test-phase perturbation can address an
undefined slot (`get? = none`). -/
theorem claim_C3_orientation_underfill (r : ℕ → ℚ) (n : ℕ)
    (hr : ∀ j, 0 ≤ r j ∧ r j < 1) :
    (∀ a ∈ randomOrientations r n, 0 ≤ a ∧ a < 180) ∧
    ((randomOrientations r n).Pairwise fun a b => ANGLE_CHANGE ≤ circularMinDiff a b) ∧
    (randomOrientations r n).length ≤ n ∧
    (10 ≤ n → (randomOrientations r n).length ≤ 9) ∧
    (10 ≤ n → (randomOrientations r n).length < n) ∧
    (n = 10 →
      (randomOrientations r n).get? (probeIndex (99 / 100) 10).toNat = none) := by
  obtain ⟨h1, h2, h3⟩ := orientFold_inv r hr (List.range n) ([], 0) (by simp) (by simp)
  rw [List.length_range] at h3
  have hlen9 : 10 ≤ n → (randomOrientations r n).length ≤ 9 := fun _ =>
    orient_sep_length_le _ h1 h2
  have hprobe : (probeIndex (99 / 100) 10).toNat = 9 := by
    have : probeIndex (99 / 100) 10 = 9 := by
      unfold probeIndex
      rw [(by norm_num : (99 : ℚ) / 100 * ((10 : ℕ) : ℚ) = 99 / 10)]
      rw [Int.floor_eq_iff]
      norm_num
    rw [this]
    rfl
  refine ⟨h1, h2, by simpa [randomOrientations] using h3, hlen9, ?_, ?_⟩
  · intro hn
    have := hlen9 hn
    omega
  · intro hn
    rw [hprobe, List.get?_eq_none]
    have := hlen9 (by omega)
    omega

/-- C3 witness: at the all-zero stream and the maximum set size 10, the
generated memory array has at most nine orientations and the probed index
9 reads an undefined entry. -/
theorem claim_C3_orientation_underfill_witness :
    (randomOrientations zeroStream 10).length < 10 ∧
    (randomOrientations zeroStream 10).get? (probeIndex (99 / 100) 10).toNat = none := by
  have h := claim_C3_orientation_underfill zeroStream 10
    (fun j => ⟨by norm_num [zeroStream], by norm_num [zeroStream]⟩)
  exact ⟨h.2.2.2.2.1 (by norm_num), h.2.2.2.2.2 rfl⟩

theorem freqTry_some (r : ℕ → ℚ) (hr : ∀ j, 0 ≤ r j ∧ r j < 1) (arr : List ℚ) :
    ∀ (t k : ℕ) (f : ℚ) (k' : ℕ), freqTry r arr k t = (some f, k') →
      (FREQ_MIN ≤ f ∧ f < FREQ_MAX) ∧ ∀ o ∈ arr, FREQ_MIN_SEP_FRAC ≤ relSep f o := by
  intro t
  induction t with
  | zero => intro k f k' h; exact absurd h (by simp [freqTry])
  | succ t ih =>
    intro k f k' h
    rw [freqTry] at h
    by_cases hc : arr.all fun o =>
        decide (FREQ_MIN_SEP_FRAC ≤ relSep (FREQ_MIN + r k * (FREQ_MAX - FREQ_MIN)) o)
    · rw [if_pos hc] at h
      rw [Prod.ext_iff] at h
      obtain ⟨h1, h2⟩ := h
      rw [Option.some_inj] at h1
      subst h1
      simp only [List.all_eq_true, decide_eq_true_eq] at hc
      refine ⟨⟨?_, ?_⟩, hc⟩
      · unfold FREQ_MIN FREQ_MAX
        nlinarith [(hr k).1]
      · unfold FREQ_MIN FREQ_MAX
        nlinarith [(hr k).1, (hr k).2]
    · rw [if_neg hc] at h
      exact ih (k + 1) f k' h

theorem freqFallback_range (n i : ℕ) (h : i < n) :
    FREQ_MIN ≤ freqFallback n i ∧ freqFallback n i ≤ FREQ_MAX := by
  unfold freqFallback FREQ_MIN FREQ_MAX
  have hden : (1 : ℚ) ≤ ((max 1 (n - 1) : ℕ) : ℚ) := by
    exact_mod_cast le_max_left 1 (n - 1)
  have hi : (i : ℚ) ≤ ((max 1 (n - 1) : ℕ) : ℚ) := by
    exact_mod_cast (by omega : i ≤ max 1 (n - 1))
  constructor
  · have h0 : 0 ≤ (i : ℚ) * (6 - 1) / ((max 1 (n - 1) : ℕ) : ℚ) := by positivity
    linarith
  · have h5 : (i : ℚ) * (6 - 1) / ((max 1 (n - 1) : ℕ) : ℚ) ≤ 5 := by
      rw [div_le_iff (by linarith)]
      nlinarith
    linarith

theorem freqStep_of_some (r : ℕ → ℚ) (n : ℕ) (st : List ℚ × ℕ) (i : ℕ) (f : ℚ) (k' : ℕ)
    (h : freqTry r st.1 st.2 999 = (some f, k')) :
    freqStep r n st i =
      (if (st.1 ++ [f]).length < i + 1 then (st.1 ++ [f]) ++ [freqFallback n i]
       else st.1 ++ [f], k') := by
  unfold freqStep
  rw [h]

theorem freqStep_of_fail (r : ℕ → ℚ) (n : ℕ) (st : List ℚ × ℕ) (i : ℕ) (k' : ℕ)
    (h : freqTry r st.1 st.2 999 = (none, k')) :
    freqStep r n st i =
      (if st.1.length < i + 1 then st.1 ++ [freqFallback n i] else st.1, k') := by
  unfold freqStep
  rw [h]

theorem freqFold_inv (r : ℕ → ℚ) (hr : ∀ j, 0 ≤ r j ∧ r j < 1) (n : ℕ) :
    ∀ m, m ≤ n →
      ((List.range m).foldl (freqStep r n) ([], 0)).1.length = m ∧
      ∀ f ∈ ((List.range m).foldl (freqStep r n) ([], 0)).1,
        FREQ_MIN ≤ f ∧ f ≤ FREQ_MAX := by
  intro m
  induction m with
  | zero => intro _; simp
  | succ m ih =>
    intro hmn
    obtain ⟨ihlen, ihmem⟩ := ih (by omega)
    rw [List.range_succ, List.foldl_append]
    set st := (List.range m).foldl (freqStep r n) ([], 0) with hst
    simp only [List.foldl_cons, List.foldl_nil]
    rcases htry : freqTry r st.1 st.2 999 with ⟨res, k'⟩
    rcases res with _ | f
    · rw [freqStep_of_fail r n st m k' htry]
      have hlen : st.1.length < m + 1 := by omega
      rw [if_pos hlen]
      constructor
      · simp [ihlen]
      · intro g hg
        rcases List.mem_append.mp hg with hg | hg
        · exact ihmem g hg
        · rw [List.mem_singleton.mp hg]
          exact freqFallback_range n m (by omega)
    · rw [freqStep_of_some r n st m f k' htry]
      have hlen : ¬ (st.1 ++ [f]).length < m + 1 := by simp [ihlen]
      rw [if_neg hlen]
      obtain ⟨⟨hf1, hf2⟩, _⟩ := freqTry_some r hr st.1 999 st.2 f k' htry
      constructor
      · simp [ihlen]
      · intro g hg
        rcases List.mem_append.mp hg with hg | hg
        · exact ihmem g hg
        · rw [List.mem_singleton.mp hg]
          exact ⟨hf1, le_of_lt hf2⟩

theorem freqTry_cex_fail (t : ℕ) : ∀ k : ℕ,
    freqTry cexStream [(59 : ℚ) / 10] k t = (none, k + t) := by
  induction t with
  | zero => intro k; simp [freqTry]
  | succ t ih =>
    intro k
    rw [freqTry]
    have hc : ¬ (([(59 : ℚ) / 10]).all fun o =>
        decide (FREQ_MIN_SEP_FRAC ≤
          relSep (FREQ_MIN + cexStream k * (FREQ_MAX - FREQ_MIN)) o)) := by
      norm_num [cexStream, relSep, FREQ_MIN, FREQ_MAX, FREQ_MIN_SEP_FRAC]
    rw [if_neg hc, ih (k + 1)]
    congr 1
    omega

set_option maxHeartbeats 1000000 in
theorem freqTry_cex_first : freqTry cexStream [] 0 999 = (some ((59 : ℚ) / 10), 1) := by
  rw [(by norm_num : (999 : ℕ) = 998 + 1), freqTry]
  norm_num [cexStream, FREQ_MIN, FREQ_MAX]

set_option maxHeartbeats 1000000 in
theorem randomFreqs_cex : randomFreqs cexStream 2 = [(59 : ℚ) / 10, 6] := by
  unfold randomFreqs
  rw [(by decide : List.range 2 = [0, 1])]
  simp only [List.foldl_cons, List.foldl_nil]
  rw [freqStep_of_some cexStream 2 ([], 0) 0 ((59 : ℚ) / 10) 1 freqTry_cex_first]
  norm_num
  rw [freqStep_of_fail cexStream 2 ([(59 : ℚ) / 10], 1) 1 1000 (freqTry_cex_fail 999 1)]
  norm_num [freqFallback, FREQ_MIN, FREQ_MAX]

/-- C4 counterexample: drawing `0.98` on every call places `5.9` at
index 0 and exhausts the 999-try budget at index 1 (every draw is again
`5.9`), so the linear fallback pushes `6.0` — and `5.9` versus `6.0` has
relative separation `2/119 < 0.12`, violating the claimed pairwise
separation of fallback-placed elements. -/
theorem claim_C4_freq_cex :
    randomFreqs cexStream 2 = [(59 : ℚ) / 10, 6] ∧
    ¬ FREQ_MIN_SEP_FRAC ≤ relSep ((59 : ℚ) / 10) 6 ∧
    ¬ (randomFreqs cexStream 2).Pairwise fun a b => FREQ_MIN_SEP_FRAC ≤ relSep a b := by
  have hsep : ¬ FREQ_MIN_SEP_FRAC ≤ relSep ((59 : ℚ) / 10) 6 := by
    unfold relSep FREQ_MIN_SEP_FRAC
    rw [(by norm_num : (59 : ℚ) / 10 - 6 = -(1 / 10)), abs_neg,
      abs_of_nonneg (by norm_num : (0 : ℚ) ≤ 1 / 10)]
    norm_num
  refine ⟨randomFreqs_cex, hsep, ?_⟩
  rw [randomFreqs_cex]
  intro hp
  exact hsep (List.rel_of_pairwise_cons hp (List.mem_singleton_self 6))

/-- C4 (amended): for a random source drawing in `[0, 1)` the generated
frequency array always has exactly `n` elements, all inside
`[FREQ_MIN, FREQ_MAX] = [1, 6]`; elements accepted by rejection sampling
are at least 12% separated from all earlier elements, but elements placed
by the deterministic linear fallback are pushed without re-checking the
separation and can violate it (see the counterexample). -/
theorem claim_C4_freq_amended (r : ℕ → ℚ) (n : ℕ)
    (hr : ∀ j, 0 ≤ r j ∧ r j < 1) :
    (randomFreqs r n).length = n ∧
    ∀ f ∈ randomFreqs r n, FREQ_MIN ≤ f ∧ f ≤ FREQ_MAX := by
  have h := freqFold_inv r hr n n le_rfl
  constructor
  · exact h.1
  · exact h.2

/-- C4 witness: at the constant-0.98 stream with `n = 2` the array has
exactly two elements, each inside `[1, 6]`. -/
theorem claim_C4_freq_amended_witness :
    (randomFreqs cexStream 2).length = 2 ∧
    ∀ f ∈ randomFreqs cexStream 2, FREQ_MIN ≤ f ∧ f ≤ FREQ_MAX :=
  claim_C4_freq_amended cexStream 2
    (fun j => ⟨by norm_num [cexStream], by norm_num [cexStream]⟩)

/-- C5 counterexample: with anchor 9 and compare-delta 3 (both inside the
domains the loader accepts and the adaptive controller produces) the
upper clamp compresses the counts to 8 and 10, so `|countA - countB|` is
2, not the current compare-delta 3. -/
theorem claim_C5_compare_cex :
    compareCounts 9 3 1 = { cntA := 8, cntB := 10, bLarger := true } ∧
    ¬ |(compareCounts 9 3 1).cntA - (compareCounts 9 3 1).cntB| = 3 := by
  have h : compareCounts 9 3 1 = { cntA := 8, cntB := 10, bLarger := true } := by
    norm_num [compareCounts, NUM_COUNT_MIN, NUM_COUNT_MAX]
  rw [h]
  norm_num

/-- C5 (amended): the compare trial takes `smaller = max(4, anchor -
⌊delta/2⌋)` and `larger = min(10, smaller + delta)`; whenever the upper
clamp does not bind (`smaller + delta ≤ 10`), the two counts differ by
exactly `delta`, both lie in `[4, 10]`, the `< 0.5` coin draw decides
which of A/B receives the larger count, and the arrow-key response is
scored correct exactly when the chosen array holds the strictly larger
count. -/
theorem claim_C5_compare_amended (base delta : ℤ) (q : ℚ)
    (hd : 1 ≤ delta)
    (hub : max NUM_COUNT_MIN (base - delta / 2) + delta ≤ NUM_COUNT_MAX) :
    |(compareCounts base delta q).cntA - (compareCounts base delta q).cntB| = delta ∧
    NUM_COUNT_MIN ≤ (compareCounts base delta q).cntA ∧
    (compareCounts base delta q).cntA ≤ NUM_COUNT_MAX ∧
    NUM_COUNT_MIN ≤ (compareCounts base delta q).cntB ∧
    (compareCounts base delta q).cntB ≤ NUM_COUNT_MAX ∧
    ((compareCounts base delta q).bLarger = true ↔
      (compareCounts base delta q).cntA < (compareCounts base delta q).cntB) ∧
    (q < 1 / 2 → (compareCounts base delta q).cntB < (compareCounts base delta q).cntA) ∧
    (¬ q < 1 / 2 → (compareCounts base delta q).cntA < (compareCounts base delta q).cntB) ∧
    (compareCorrect true (compareCounts base delta q).bLarger = true ↔
      (compareCounts base delta q).cntB < (compareCounts base delta q).cntA) ∧
    (compareCorrect false (compareCounts base delta q).bLarger = true ↔
      (compareCounts base delta q).cntA < (compareCounts base delta q).cntB) := by
  have hS : NUM_COUNT_MIN ≤ max NUM_COUNT_MIN (base - delta / 2) := le_max_left _ _
  simp only [compareCounts, compareCorrect]
  rw [min_eq_right hub]
  set S := max NUM_COUNT_MIN (base - delta / 2) with hSdef
  by_cases hq : q < 1 / 2 <;>
    simp only [hq, if_true, if_false, decide_eq_true_eq, gt_iff_lt, Bool.not_true,
      Bool.not_false, Bool.true_and, Bool.false_and, Bool.and_true, Bool.and_false,
      Bool.or_false, Bool.false_or, not_lt, decide_eq_true_iff, not_true, not_false_iff,
      forall_true_left, IsEmpty.forall_iff, true_and, and_true] <;>
    repeat' apply And.intro
  all_goals
    first
      | omega
      | (rw [(by ring : S + delta - S = delta)]; exact abs_of_nonneg (by omega))
      | (rw [(by ring : S - (S + delta) = -delta), abs_neg]; exact abs_of_nonneg (by omega))
      | (simp only [Bool.not_eq_true', decide_eq_false_iff_not]; omega)

/-- C2 counterexample: a store holding the non-numeric string `abc`
under `points` loads `points = NaN` (here `none`), and a stored
`set_size` of `-3` is kept negative — neither is clamped or replaced, so
the loaded state has a NaN field and an out-of-domain field. -/
theorem claim_C2_load_nan :
    (loadInit badStore).points = none ∧ (loadInit badStore).setSize = some (-3) := by
  constructor <;> decide

/-- C2 (amended): loading is total (never raises), and the fields the
load effect validates — saccade counters, exposure, separation,
similarity, anchor, compare-delta — do land in their domains, as does the
`set_size = 0 → 1` replacement; but `points`, `set_trial`, `bar_total`,
`bar_correct` and non-zero `set_size` values are used exactly as
`parseInt` returns them, so non-numeric strings become NaN and negative
values are kept (see the counterexample). -/
theorem claim_C2_load_validated (store : String → Option String) :
    0 ≤ (loadInit store).sacTotal ∧ 0 ≤ (loadInit store).sacHits ∧
    50 < (loadInit store).numExposureMs ∧ 16 ≤ (loadInit store).numMinSepPx ∧
    0 ≤ (loadInit store).numSimilarity01 ∧ (loadInit store).numSimilarity01 ≤ 1 ∧
    NUM_SET_MIN ≤ (loadInit store).numAnchorSetSize ∧
    (loadInit store).numAnchorSetSize ≤ NUM_SET_MAX ∧
    1 ≤ (loadInit store).numCompareDelta ∧ (loadInit store).numCompareDelta ≤ 3 ∧
    (loadInit store).setSize ≠ some 0 := by
  unfold loadInit
  dsimp only
  refine ⟨?_, ?_, ?_, ?_, ?_, ?_, ?_, ?_, ?_, ?_, ?_⟩
  · rcases getDataAsNum store kSacTotal with _ | v <;> simp <;> split_ifs <;> omega
  · rcases getDataAsNum store kSacHits with _ | v <;> simp <;> split_ifs <;> omega
  · rcases getDataAsNum store kNumExposureMs with _ | v
    · norm_num [NUM_MEM_MS]
    · dsimp only
      split_ifs with h
      · exact_mod_cast h
      · norm_num [NUM_MEM_MS]
  · rcases getDataAsNum store kNumMinSep with _ | v
    · norm_num [NUM_MIN_SEP]
    · dsimp only
      split_ifs with h
      · exact_mod_cast h
      · norm_num [NUM_MIN_SEP]
  · rcases store kNumSimilarity with _ | raw
    · norm_num
    · dsimp only
      rcases parseFloatJS raw with _ | x
      · norm_num
      · dsimp only
        split_ifs with h
        · exact h.1
        · norm_num
  · rcases store kNumSimilarity with _ | raw
    · norm_num
    · dsimp only
      rcases parseFloatJS raw with _ | x
      · norm_num
      · dsimp only
        split_ifs with h
        · exact h.2
        · norm_num
  · rcases getDataAsNum store kNumAnchorSetsize with _ | v <;>
      simp [NUM_SET_MIN, NUM_SET_MAX] <;> split_ifs <;> omega
  · rcases getDataAsNum store kNumAnchorSetsize with _ | v <;>
      simp [NUM_SET_MIN, NUM_SET_MAX] <;> split_ifs <;> omega
  · rcases getDataAsNum store kNumCompareDelta with _ | v <;> simp <;> split_ifs <;> omega
  · rcases getDataAsNum store kNumCompareDelta with _ | v <;> simp <;> split_ifs <;> omega
  · by_cases h : getDataAsNum store kSetSize = some 0 <;> simp [h]

/-- C10: pressing pause in any phase other than test (help closed) only
sets the `paused` flag — the pending phase-chain timer is neither
cancelled nor extended; the chain's timer firings are themselves
independent of `paused`, and from the fixation phase they reach the test
phase in at most six firings; only the test-phase response-window
countdown is frozen by pause (elapsed recorded, timeout cancelled) and
rescheduled by resume for the remaining time with the reaction-time
origin rebased. -/
theorem claim_C10_pause_timers (s : PM) (now : ℚ) (b : Bool) (hh : s.help = false) :
    (s.paused = false → s.phase ≠ Phase.test → pressPauseKey now s = { s with paused := true }) ∧
    (stepTimer now { s with paused := b } = { stepTimer now s with paused := b }) ∧
    (s.phase = Phase.fix → ∃ k, 0 < k ∧ k ≤ 6 ∧ ((stepTimer now)^[k] s).phase = Phase.test) ∧
    (s.paused = false → s.phase = Phase.test →
      pressPauseKey now s =
        { s with respElapsed := now - s.testStart, respRemaining := none, paused := true }) ∧
    (s.paused = true → s.phase = Phase.test →
      pressPauseKey now s =
        { s with respRemaining := some (max 0 (RESP_WINDOW_MS - s.respElapsed)),
                 testStart := now - s.respElapsed, paused := false }) := by
  refine ⟨?_, ?_, ?_, ?_, ?_⟩
  · intro hp ht
    unfold pressPauseKey
    simp [hh, hp, ht]
  · unfold stepTimer
    rcases h : chainNext s.mode s.submode s.numExposureMs s.phase with _ | ⟨p, d⟩ <;>
      simp [h] <;> split_ifs <;> rfl
  · intro hfix
    rcases hm : s.mode with _ | _ | _ | _ | _
    · exact ⟨4, by norm_num, by norm_num, by
        simp [Function.iterate_succ_apply, stepTimer, chainNext, hm, hfix]⟩
    · exact ⟨4, by norm_num, by norm_num, by
        simp [Function.iterate_succ_apply, stepTimer, chainNext, hm, hfix]⟩
    · exact ⟨4, by norm_num, by norm_num, by
        simp [Function.iterate_succ_apply, stepTimer, chainNext, hm, hfix]⟩
    · rcases hsm : s.submode with _ | _
      · exact ⟨4, by norm_num, by norm_num, by
          simp [Function.iterate_succ_apply, stepTimer, chainNext, hm, hsm, hfix]⟩
      · exact ⟨6, by norm_num, by norm_num, by
          simp [Function.iterate_succ_apply, stepTimer, chainNext, hm, hsm, hfix]⟩
    · exact ⟨5, by norm_num, by norm_num, by
        simp [Function.iterate_succ_apply, stepTimer, chainNext, hm, hfix]⟩
  · intro hp ht
    unfold pressPauseKey
    simp [hh, hp, ht]
  · intro hp ht
    unfold pressPauseKey
    simp [hh, hp, ht]

/-- C10 witness: pausing the concrete test state 1000 ms in freezes the
countdown; the paused fixation state still steps through to the test
phase; resuming after the pause reschedules the remaining 1500 ms. -/
theorem claim_C10_pause_timers_witness :
    pressPauseKey 1000 pmTest =
      { pmTest with respElapsed := 1000 - pmTest.testStart, respRemaining := none,
                    paused := true } ∧
    (∃ k, 0 < k ∧ k ≤ 6 ∧ ((stepTimer 0)^[k] pmFixPaused).phase = Phase.test) :=
  ⟨(claim_C10_pause_timers pmTest 1000 true rfl).2.2.2.1 rfl rfl,
   (claim_C10_pause_timers pmFixPaused 0 true rfl).2.2.1 rfl⟩

/-- C5 witness: the spec's own scenario — anchor 5, delta 2 — gives one
array of 4 and one of 6 (both orders, by the coin draw), differing by
exactly the delta. -/
theorem claim_C5_compare_amended_witness :
    |(compareCounts 5 2 1).cntA - (compareCounts 5 2 1).cntB| = 2 ∧
    compareCounts 5 2 1 = { cntA := 4, cntB := 6, bLarger := true } ∧
    compareCounts 5 2 0 = { cntA := 6, cntB := 4, bLarger := false } :=
  ⟨(claim_C5_compare_amended 5 2 1 (by norm_num)
      (by norm_num [NUM_COUNT_MIN, NUM_COUNT_MAX])).1,
   by norm_num [compareCounts, NUM_COUNT_MIN, NUM_COUNT_MAX],
   by norm_num [compareCounts, NUM_COUNT_MIN, NUM_COUNT_MAX]⟩

end VWM
